import Mathlib

/-!
Shallow embedding of the early-boot core of the blog_os_riscv kernel:
the machine-mode trap dispatcher (src/src/trap.rs), the boot orchestrator
kinit / kinit_hart and the identity-mapping helper id_map_range
(src/src/main.rs), and the UART receive path (src/src/uart.rs).

Machine integers are modelled as Nat with explicit `% 2 ^ 64` where the
64-bit wrap of the source could matter.  Memory-mapped I/O is modelled by
explicit effect records: the dispatcher returns, besides its resume value,
the timer-compare store it performed, the list of PLIC completion
acknowledgements it sent, and the bytes it echoed to the UART.
-/

set_option linter.unusedVariables false
set_option linter.unnecessarySeqFocus false

/-- Result of one invocation of the trap dispatcher `m_trap`: either a resume
program counter handed back to the assembly trampoline, or a panic (which the
panic handler turns into `abort`, a permanent idle loop), recording the hart
and narrowed cause number that the panic diagnostic prints. -/
inductive MTrapResult where
  | resume (pc : Nat)
  | halt (hart : Nat) (causeNum : Nat)
deriving DecidableEq, Repr

/-- One operation that `Uart::get` performs on a device register, as an offset
from the UART base address. -/
inductive UartOp where
  | read (offset : Nat)
  | write (offset : Nat) (val : Nat)
deriving DecidableEq, Repr

/-- Side effects of one `m_trap` invocation: the (address, value) pair of the
volatile 8-byte store to the timer-compare register if the timer branch ran,
the PLIC source ids acknowledged with `plic::complete`, and the bytes echoed
to the UART by the external-interrupt UART branch.  Diagnostic `println!`
logging is not part of this record; the fatal diagnostic is carried by
`MTrapResult.halt` instead. -/
structure TrapEffects where
  mtimecmpWrite : Option (Nat × Nat)
  completes : List Nat
  echo : List Nat
deriving DecidableEq, Repr

/-- No side effects. -/
def noEffects : TrapEffects :=
  { mtimecmpWrite := none, completes := [], echo := [] }

/-- Embeds `let is_async = if cause >> 63 & 1 == 1 { true } else { false }`
from src/src/trap.rs. -/
def is_async (cause : Nat) : Bool :=
  ((cause >>> 63) &&& 1) == 1

/-- Embeds `let cause_num = cause & 0xfff` from src/src/trap.rs. -/
def cause_num (cause : Nat) : Nat :=
  cause &&& 0xfff

/-- Embeds `Uart::get` (src/src/uart.rs): read the line-status register at
offset 5; if bit 0 (data ready) is clear return `None`, otherwise read and
return the byte at offset 0.  `reg o` is the value a volatile u8 read at
base + o returns.  The second component is the trace of device-register
operations performed. -/
def Uart.get (reg : Nat → Nat) : Option Nat × List UartOp :=
  if reg 5 &&& 1 = 0 then (none, [UartOp.read 5])
  else (some (reg 0), [UartOp.read 5, UartOp.read 0])

/-- UTF-8 encoding of the code point c, for c < 0x800; this covers every
value a `u8 as char` cast can produce.  Rust `print!("{}", c as char)`
pushes exactly these bytes through `Uart::put`. -/
def charUtf8 (c : Nat) : List Nat :=
  if c < 0x80 then [c]
  else [0xc0 ||| (c >>> 6), 0x80 ||| (c &&& 0x3f)]

/-- Bytes the UART branch of `m_trap` echoes for an input byte c
(src/src/trap.rs lines 53-67): `8 | 127` prints char 8, a space, char 8;
`10 | 13` prints `println!()`, which is the two bytes `"\r\n"`; any other
byte is printed as `c as char`, i.e. the UTF-8 encoding of code point c. -/
def echoOf (c : Nat) : List Nat :=
  if c = 8 ∨ c = 127 then [8, 32, 8]
  else if c = 10 ∨ c = 13 then [13, 10]
  else charUtf8 c

/-- Address of the volatile timer-compare store in the timer branch:
`let mtimecmp = 0x0200_4000 as *mut u64` (src/src/trap.rs line 40). -/
def MTIMECMP_ADDR : Nat := 0x02004000

/-- Address of the volatile timer-counter load in the timer branch:
`let mtime = 0x0200_bff8 as *const u64` (src/src/trap.rs line 41). -/
def MTIME_ADDR : Nat := 0x0200bff8

/-- Embeds `m_trap` (src/src/trap.rs).  Besides the register arguments,
the model takes the environment the dispatcher samples: `mtime` is the value
the volatile read of the timer counter returns, `plicNext` is what
`plic::next()` returns, and `uartReg` gives the UART device-register values
read by `Uart::get`.  Arithmetic on the u64 timer value and on the usize
return PC wraps modulo 2 ^ 64 as in the source. -/
def m_trap (epc tval cause hart mtime : Nat) (plicNext : Option Nat)
    (uartReg : Nat → Nat) : MTrapResult × TrapEffects :=
  if is_async cause then
    if cause_num cause = 3 then
      (MTrapResult.resume epc, noEffects)
    else if cause_num cause = 7 then
      (MTrapResult.resume epc,
        { mtimecmpWrite := some (MTIMECMP_ADDR, (mtime + 10000000) % 2 ^ 64),
          completes := [], echo := [] })
    else if cause_num cause = 11 then
      match plicNext with
      | some interrupt =>
        if interrupt = 10 then
          match (Uart.get uartReg).1 with
          | some c =>
            (MTrapResult.resume epc,
              { mtimecmpWrite := none, completes := [interrupt], echo := echoOf c })
          | none =>
            (MTrapResult.resume epc,
              { mtimecmpWrite := none, completes := [interrupt], echo := [] })
        else
          (MTrapResult.resume epc,
            { mtimecmpWrite := none, completes := [interrupt], echo := [] })
      | none => (MTrapResult.resume epc, noEffects)
    else
      (MTrapResult.halt hart (cause_num cause), noEffects)
  else
    if cause_num cause = 2 then
      (MTrapResult.halt hart (cause_num cause), noEffects)
    else if cause_num cause = 8 then
      (MTrapResult.resume ((epc + 4) % 2 ^ 64), noEffects)
    else if cause_num cause = 9 then
      (MTrapResult.resume ((epc + 4) % 2 ^ 64), noEffects)
    else if cause_num cause = 11 then
      (MTrapResult.resume ((epc + 4) % 2 ^ 64), noEffects)
    else if cause_num cause = 12 then
      (MTrapResult.resume ((epc + 4) % 2 ^ 64), noEffects)
    else if cause_num cause = 13 then
      (MTrapResult.resume ((epc + 4) % 2 ^ 64), noEffects)
    else if cause_num cause = 15 then
      (MTrapResult.resume ((epc + 4) % 2 ^ 64), noEffects)
    else
      (MTrapResult.halt hart (cause_num cause), noEffects)

/-- Program counter of the `abort` idle loop (src/src/main.rs lines 39-45):
`loop { wfi }`.  `returned` is the state of having fallen out of the loop;
the code has no edge into it. -/
inductive AbortPC where
  | wfiInstr
  | loopBack
  | returned
deriving DecidableEq, Repr

/-- One step of the `abort` loop: execute `wfi`, then branch back to it.
`returned` would be a final state, but no step produces it. -/
def abortStep : AbortPC → AbortPC
  | AbortPC.wfiInstr => AbortPC.loopBack
  | AbortPC.loopBack => AbortPC.wfiInstr
  | AbortPC.returned => AbortPC.returned

/-- Run the `abort` loop for n steps. -/
def abortRun : Nat → AbortPC → AbortPC
  | 0, s => s
  | n + 1, s => abortRun n (abortStep s)

/-- Page size, 4096 bytes (`page::PAGE_SIZE`; the spec fixes frames at
4096 bytes). -/
def PAGE_SIZE : Nat := 4096

/-- Embeds `start & !(PAGE_SIZE - 1)` from `id_map_range`
(src/src/main.rs line 68): clear the low 12 bits, i.e. round down to a page
boundary.  On Nat this is division-then-multiplication by 4096. -/
def alignDownPage (x : Nat) : Nat := PAGE_SIZE * (x / PAGE_SIZE)

/-- Modelled from the spec: `page::align_val` (src/src/page.rs is not in the
snapshot).  The spec says identity_map_range rounds `end` up to a page
boundary, so `align_val v o` rounds v up to the next multiple of 2 ^ o. -/
def align_val (val : Nat) (order : Nat) : Nat :=
  ((val + (1 <<< order) - 1) >>> order) <<< order

/-- One call to `page::map(root, vaddr, paddr, bits, level)` recorded as
data; `page.rs` itself is not in the snapshot, so the mapping claims are
stated about the sequence of map calls the helpers issue. -/
structure MapCall where
  vaddr : Nat
  paddr : Nat
  bits : Int
  level : Nat
deriving DecidableEq, Repr

/-- The `for _ in 0..num_kb_pages` loop body of `id_map_range`
(src/src/main.rs lines 75-78): issue `map(root, memaddr, memaddr, bits, 0)`
and advance memaddr by `1 << 12` bytes. -/
def id_map_loop (bits : Int) : Nat → Nat → List MapCall
  | 0, _ => []
  | n + 1, memaddr =>
      MapCall.mk memaddr memaddr bits 0 :: id_map_loop bits n (memaddr + PAGE_SIZE)

/-- Embeds `id_map_range` (src/src/main.rs lines 67-79): round `start` down
to a page boundary, compute the page count up to `align_val(end, 12)`, and
map each page identically at level 0. -/
def id_map_range (start endAddr : Nat) (bits : Int) : List MapCall :=
  let memaddr := alignDownPage start
  let num_kb_pages := (align_val endAddr 12 - memaddr) / PAGE_SIZE
  id_map_loop bits num_kb_pages memaddr

/-- The linker- and allocator-supplied address parameters `kinit` maps
(src/src/main.rs): section bounds from the linker script, the heap layout
from `kmem`/`page`, and the trap stack / trap frame addresses chosen late in
`kinit`.  They are external configuration to this core. -/
structure KinitSyms where
  kheapHead : Nat
  totalPages : Nat
  heapStart : Nat
  heapSize : Nat
  textStart : Nat
  textEnd : Nat
  rodataStart : Nat
  rodataEnd : Nat
  dataStart : Nat
  dataEnd : Nat
  bssStart : Nat
  bssEnd : Nat
  stackStart : Nat
  stackEnd : Nat
  trapStackTop : Nat
  trapFrameAddr : Nat
  trapFrameSize : Nat
deriving Repr

/-- The full sequence of page-mapping calls `kinit` issues
(src/src/main.rs lines 121-222 and 272-284), in source order: heap data,
heap descriptors, text, rodata, data, bss, kernel stack, then the device
windows UART 0x1000_0000, CLINT pages 0x0200_0000 / 0x0200_b000 /
0x0200_c000 (single `map` calls, commented MSIP / MTIMECMP / MTIME in the
source), the two PLIC windows, and finally the trap stack page and the trap
frame itself.  `bitsRW` and `bitsRE` stand for
`EntryBits::ReadWrite.val()` and `EntryBits::ReadExecute.val()`. -/
def kinitMapCalls (S : KinitSyms) (bitsRW bitsRE : Int) : List MapCall :=
  id_map_range S.kheapHead (S.kheapHead + S.totalPages * 4096) bitsRW
    ++ id_map_range S.heapStart (S.heapStart + S.heapSize / PAGE_SIZE) bitsRW
    ++ id_map_range S.textStart S.textEnd bitsRE
    ++ id_map_range S.rodataStart S.rodataEnd bitsRE
    ++ id_map_range S.dataStart S.dataEnd bitsRW
    ++ id_map_range S.bssStart S.bssEnd bitsRW
    ++ id_map_range S.stackStart S.stackEnd bitsRW
    ++ [MapCall.mk 0x10000000 0x10000000 bitsRW 0,
        MapCall.mk 0x02000000 0x02000000 bitsRW 0,
        MapCall.mk 0x0200b000 0x0200b000 bitsRW 0,
        MapCall.mk 0x0200c000 0x0200c000 bitsRW 0]
    ++ id_map_range 0x0c000000 0x0c002001 bitsRW
    ++ id_map_range 0x0c200000 0x0c208000 bitsRW
    ++ id_map_range (S.trapStackTop - PAGE_SIZE) S.trapStackTop bitsRW
    ++ id_map_range S.trapFrameAddr (S.trapFrameAddr + S.trapFrameSize) bitsRW

/-- A level-0 map call makes the byte at address a reachable exactly when a
lies in the 4 KiB page containing the call's virtual address (the hardware
translates through the leaf written for that page). -/
def coversAddr (c : MapCall) (a : Nat) : Prop :=
  c.level = 0 ∧ (c.vaddr >>> 12) <<< 12 ≤ a ∧ a < (c.vaddr >>> 12) <<< 12 + 4096

/-- A concrete, well-formed instance of the kinit address parameters, with
every kernel region inside RAM (which starts at 0x8000_0000 on the board
this kernel targets). -/
def sampleKinitSyms : KinitSyms :=
  { kheapHead := 0x80000000, totalPages := 1,
    heapStart := 0x80001000, heapSize := 0x1000,
    textStart := 0x80002000, textEnd := 0x80003000,
    rodataStart := 0x80003000, rodataEnd := 0x80004000,
    dataStart := 0x80004000, dataEnd := 0x80005000,
    bssStart := 0x80005000, bssEnd := 0x80006000,
    stackStart := 0x80006000, stackEnd := 0x80008000,
    trapStackTop := 0x80009000, trapFrameAddr := 0x8000a000,
    trapFrameSize := 512 }

/-- The three per-hart trap-frame fields the spec says boot populates.
`none` models a field never written since the static link-time
initialization of `KERNEL_TRAP_FRAME`. -/
structure TrapFrameFields where
  hart_id : Option Nat
  satp : Option Nat
  trap_stack : Option Nat
deriving DecidableEq, Repr

/-- Trap-frame fields before boot touches them. -/
def bootFrameInit : TrapFrameFields :=
  { hart_id := none, satp := none, trap_stack := none }

/-- The trap-frame field writes `kinit` performs on hart 0s frame
(src/src/main.rs lines 265 and 271): `KERNEL_TRAP_FRAME[0].satp = satp_value`
and `KERNEL_TRAP_FRAME[0].trap_stack = zalloc(1).add(PAGE_SIZE)`.  The
`hart_id` field is never assigned in `kinit`. -/
def kinitFrameWrites (satpValue trapStackTop : Nat)
    (tf : TrapFrameFields) : TrapFrameFields :=
  { tf with satp := some satpValue, trap_stack := some trapStackTop }

/-- The trap-frame field writes `kinit_hart` performs for a non-zero hart
(src/src/main.rs line 339): only `KERNEL_TRAP_FRAME[hartid].hart_id =
hartid`; the satp and trap_stack assignments are commented out in the
source (lines 340-343). -/
def kinit_hartFrameWrites (hartid : Nat) (tf : TrapFrameFields) : TrapFrameFields :=
  { tf with hart_id := some hartid }

/-- The machine-mode scratch, supervisor-mode scratch and translation
control registers touched at the end of `kinit`. -/
structure CpuRegs where
  mscratch : Nat
  sscratch : Nat
  satp : Nat
deriving DecidableEq, Repr

/-- Modelled from the spec: `cpu::build_satp` (src/src/cpu.rs is not in the
snapshot); spec section 6 gives the encoding
`(mode << 60) | (asid << 44) | (root_table_physical_address >> 12)`, with
mode 8 for the 3-level 39-bit mode. -/
def build_satp (mode asid addr : Nat) : Nat :=
  (mode <<< 60) ||| (asid <<< 44) ||| (addr >>> 12)

/-- Modelled from the spec: `cpu::mscratch_write` stores into the
machine-mode scratch register. -/
def mscratch_write (v : Nat) (r : CpuRegs) : CpuRegs := { r with mscratch := v }

/-- Modelled from the spec: `cpu::mscratch_read` reads the machine-mode
scratch register. -/
def mscratch_read (r : CpuRegs) : Nat := r.mscratch

/-- Modelled from the spec: `cpu::sscratch_write` stores into the
supervisor-mode scratch register. -/
def sscratch_write (v : Nat) (r : CpuRegs) : CpuRegs := { r with sscratch := v }

/-- Modelled from the spec: `cpu::satp_write` stores into the translation
control register. -/
def satp_write (v : Nat) (r : CpuRegs) : CpuRegs := { r with satp := v }

/-- The register writes at the end of `kinit` (src/src/main.rs lines
257-298), in source order: compute `satp_value = build_satp(Sv39, 0,
root_u)`, write the trap-frame address into mscratch, copy mscratch into
sscratch, and finally write `satp_value` into the satp register. -/
def kinitRegSeq (root_u trapFrameAddr : Nat) (r0 : CpuRegs) : CpuRegs :=
  let satp_value := build_satp 8 0 root_u
  let r1 := mscratch_write trapFrameAddr r0
  let r2 := sscratch_write (mscratch_read r1) r1
  satp_write satp_value r2

/-- C1: for a non-halting trap, `m_trap` returns `epc + 4` exactly when the
trap is synchronous with cause number in {8, 9, 11, 12, 13, 15}, and returns
the input `epc` unchanged for every handled asynchronous cause (3, 7, 11);
in particular synchronous cause 8 with input PC P returns P + 4. -/
theorem c1_resume_pc (epc tval cause hart mtime : Nat) (plicNext : Option Nat)
    (uartReg : Nat → Nat) (hepc : epc + 4 < 2 ^ 64) :
    (is_async cause = false → cause_num cause ∈ [8, 9, 11, 12, 13, 15] →
      (m_trap epc tval cause hart mtime plicNext uartReg).1 =
        MTrapResult.resume (epc + 4)) ∧
    (is_async cause = true → cause_num cause ∈ [3, 7, 11] →
      (m_trap epc tval cause hart mtime plicNext uartReg).1 =
        MTrapResult.resume epc) ∧
    (∀ pc, (m_trap epc tval cause hart mtime plicNext uartReg).1 =
        MTrapResult.resume pc →
      (pc = epc + 4 ↔
        is_async cause = false ∧ cause_num cause ∈ [8, 9, 11, 12, 13, 15])) := by
  have hmod : (epc + 4) % 2 ^ 64 = epc + 4 := Nat.mod_eq_of_lt hepc
  refine ⟨?_, ?_, ?_⟩
  · intro hs hm
    simp only [List.mem_cons, List.not_mem_nil, or_false] at hm
    unfold m_trap
    rcases hm with h | h | h | h | h | h <;> simp [hs, h] <;> omega
  · intro ha hm
    simp only [List.mem_cons, List.not_mem_nil, or_false] at hm
    unfold m_trap
    rcases hm with h | h | h <;> simp [ha, h] <;>
      rcases plicNext with _ | i <;> simp <;>
      by_cases hi : i = 10 <;> simp [hi] <;>
      rcases hg : (Uart.get uartReg).1 with _ | c <;> simp
  · intro pc hpc
    by_cases ha : is_async cause
    · have hres : pc = epc := by
        unfold m_trap at hpc
        rcases plicNext with _ | i <;>
          simp only [ha, if_true] at hpc <;>
          split_ifs at hpc <;>
          first
            | (simp at hpc; omega)
            | (rcases hg : (Uart.get uartReg).1 with _ | c <;>
                rw [hg] at hpc <;> simp at hpc <;> omega)
      subst hres
      constructor
      · intro h; omega
      · rintro ⟨hf, _⟩; rw [ha] at hf; simp at hf
    · have ha2 : is_async cause = false := by simpa using ha
      unfold m_trap at hpc
      rw [hmod] at hpc
      simp only [ha2, Bool.false_eq_true, if_false] at hpc
      split_ifs at hpc <;> simp at hpc <;>
        (constructor
         · intro h
           refine ⟨ha2, ?_⟩
           simp only [List.mem_cons, List.not_mem_nil, or_false]
           omega
         · intro h
           omega)

/-- Witness for c1_resume_pc at a concrete input: synchronous cause 8 with
PC 0x1000 resumes at 0x1004. -/
theorem c1_resume_pc_witness :
    (0x1000 : Nat) + 4 < 2 ^ 64 ∧
    ((is_async 8 = false → cause_num 8 ∈ [8, 9, 11, 12, 13, 15] →
      (m_trap 0x1000 0 8 0 0 none (fun _ => 0)).1 =
        MTrapResult.resume (0x1000 + 4)) ∧
    (is_async 8 = true → cause_num 8 ∈ [3, 7, 11] →
      (m_trap 0x1000 0 8 0 0 none (fun _ => 0)).1 =
        MTrapResult.resume 0x1000) ∧
    (∀ pc, (m_trap 0x1000 0 8 0 0 none (fun _ => 0)).1 =
        MTrapResult.resume pc →
      (pc = 0x1000 + 4 ↔
        is_async 8 = false ∧ cause_num 8 ∈ [8, 9, 11, 12, 13, 15]))) :=
  ⟨by norm_num, c1_resume_pc 0x1000 0 8 0 0 none (fun _ => 0) (by norm_num)⟩

/-- The abort loop never reaches the `returned` state from a non-returned
state. -/
theorem abortRun_ne_returned :
    ∀ (n : Nat) (s : AbortPC), s ≠ AbortPC.returned →
      abortRun n s ≠ AbortPC.returned := by
  intro n
  induction n with
  | zero => intro s hs; simpa [abortRun] using hs
  | succ k ih =>
    intro s hs
    have hstep : abortStep s ≠ AbortPC.returned := by
      cases s <;> simp [abortStep] at hs ⊢
    simpa [abortRun] using ih (abortStep s) hstep

/-- C3 counterexample: a timer trap taken with the timer counter at 5 and
the previous compare value 0 (so the firing condition counter >= compare
holds) stores 10000005 into the compare register, which is not the previous
compare value plus the tick interval (10000000). -/
theorem c3_counterexample :
    (m_trap 0 0 0x8000000000000007 0 5 none (fun _ => 0)).2.mtimecmpWrite =
      some (MTIMECMP_ADDR, 10000005) ∧
    (10000005 : Nat) ≠ 0 + 10000000 := by
  constructor <;> decide

/-- C3 amended: the timer branch stores the current counter value plus the
fixed tick interval 10000000 into the timer-compare register and resumes at
the unchanged epc; whenever the counter has reached the previous compare
value (the condition for the interrupt to fire) the new compare value is at
least the previous plus the interval, and strictly greater than the
previous. -/
theorem c3_timer_rearm (epc tval cause hart mtime prevCmp : Nat)
    (plicNext : Option Nat) (uartReg : Nat → Nat)
    (ha : is_async cause = true) (h7 : cause_num cause = 7)
    (hfire : prevCmp ≤ mtime) (hov : mtime + 10000000 < 2 ^ 64) :
    (m_trap epc tval cause hart mtime plicNext uartReg).1 =
      MTrapResult.resume epc ∧
    (m_trap epc tval cause hart mtime plicNext uartReg).2.mtimecmpWrite =
      some (MTIMECMP_ADDR, mtime + 10000000) ∧
    prevCmp + 10000000 ≤ mtime + 10000000 ∧
    prevCmp < mtime + 10000000 := by
  unfold m_trap
  simp [ha, h7, Nat.mod_eq_of_lt hov]
  omega

/-- Witness for c3_timer_rearm at a concrete timer trap. -/
theorem c3_timer_rearm_witness :
    (is_async 0x8000000000000007 = true ∧ cause_num 0x8000000000000007 = 7 ∧
      (0 : Nat) ≤ 5 ∧ 5 + 10000000 < 2 ^ 64) ∧
    ((m_trap 0x2000 0 0x8000000000000007 0 5 none (fun _ => 0)).1 =
      MTrapResult.resume 0x2000 ∧
    (m_trap 0x2000 0 0x8000000000000007 0 5 none (fun _ => 0)).2.mtimecmpWrite =
      some (MTIMECMP_ADDR, 5 + 10000000) ∧
    0 + 10000000 ≤ 5 + 10000000 ∧
    (0 : Nat) < 5 + 10000000) :=
  ⟨⟨by decide, by decide, by decide, by norm_num⟩,
    c3_timer_rearm 0x2000 0 0x8000000000000007 0 5 0 none (fun _ => 0)
      (by decide) (by decide) (by decide) (by norm_num)⟩

/-- C4: in the external-interrupt branch (asynchronous cause 11), every
source id returned by a successful PLIC claim receives exactly one
completion acknowledgement in that invocation, whether it is the UART
source 10 or an unrecognized source; when the claim returns none, no
completion is sent. -/
theorem c4_plic_complete (epc tval cause hart mtime : Nat)
    (plicNext : Option Nat) (uartReg : Nat → Nat)
    (ha : is_async cause = true) (h11 : cause_num cause = 11) :
    (∀ i, plicNext = some i →
      (m_trap epc tval cause hart mtime plicNext uartReg).2.completes = [i]) ∧
    (plicNext = none →
      (m_trap epc tval cause hart mtime plicNext uartReg).2.completes = []) := by
  constructor
  · intro i hi
    subst hi
    unfold m_trap
    rcases hg : (Uart.get uartReg).1 with _ | c <;>
      by_cases hi10 : i = 10 <;>
      simp [ha, h11, hg, hi10, noEffects]
  · intro hn
    subst hn
    unfold m_trap
    simp [ha, h11, noEffects]

/-- Witness for c4_plic_complete: a claimed non-UART source 7 is still
completed exactly once. -/
theorem c4_plic_complete_witness :
    (is_async 0x800000000000000b = true ∧
      cause_num 0x800000000000000b = 11) ∧
    ((∀ i, (some 7 : Option Nat) = some i →
      (m_trap 0 0 0x800000000000000b 0 0 (some 7) (fun _ => 0)).2.completes = [i]) ∧
    ((some 7 : Option Nat) = none →
      (m_trap 0 0 0x800000000000000b 0 0 (some 7) (fun _ => 0)).2.completes = [])) :=
  ⟨⟨by decide, by decide⟩,
    c4_plic_complete 0 0 0x800000000000000b 0 0 (some 7) (fun _ => 0)
      (by decide) (by decide)⟩

/-- C5: a synchronous trap with cause number 2 (illegal instruction), and
any trap whose cause number is absent from the dispatch tables, is fatal:
`m_trap` produces a halt carrying the hart and cause-number diagnostic
rather than a resume PC, and the `abort` idle loop never terminates. -/
theorem c5_fatal (epc tval cause hart mtime : Nat) (plicNext : Option Nat)
    (uartReg : Nat → Nat)
    (h : (is_async cause = true ∧ cause_num cause ∉ [3, 7, 11]) ∨
         (is_async cause = false ∧
           cause_num cause ∉ [8, 9, 11, 12, 13, 15])) :
    (m_trap epc tval cause hart mtime plicNext uartReg).1 =
      MTrapResult.halt hart (cause_num cause) ∧
    (∀ n, abortRun n AbortPC.wfiInstr ≠ AbortPC.returned) := by
  constructor
  · unfold m_trap
    rcases h with ⟨ha, hm⟩ | ⟨ha, hm⟩
    · simp only [List.mem_cons, List.not_mem_nil, or_false, not_or] at hm
      obtain ⟨h3, h7, h11⟩ := hm
      simp [ha, h3, h7, h11]
    · simp only [List.mem_cons, List.not_mem_nil, or_false, not_or] at hm
      obtain ⟨h8, h9, h11, h12, h13, h15⟩ := hm
      by_cases h2 : cause_num cause = 2 <;>
        simp [ha, h2, h8, h9, h11, h12, h13, h15]
  · intro n
    exact abortRun_ne_returned n AbortPC.wfiInstr (by simp)

/-- Witness for c5_fatal: the illegal-instruction cause 2 on hart 3 halts
with a diagnostic carrying hart 3 and cause 2. -/
theorem c5_fatal_witness :
    ((is_async 2 = true ∧ cause_num 2 ∉ [3, 7, 11]) ∨
      (is_async 2 = false ∧ cause_num 2 ∉ [8, 9, 11, 12, 13, 15])) ∧
    ((m_trap 0 0 2 3 0 none (fun _ => 0)).1 = MTrapResult.halt 3 (cause_num 2) ∧
      (∀ n, abortRun n AbortPC.wfiInstr ≠ AbortPC.returned)) :=
  ⟨by decide, c5_fatal 0 0 2 3 0 none (fun _ => 0) (by decide)⟩

/-- C6 counterexample: with the UART source claimed and byte 128 pending,
the echo is the two-byte UTF-8 sequence [194, 128], not the byte 128 itself,
so "every other byte is echoed verbatim as itself" fails at byte 128. -/
theorem c6_counterexample :
    (m_trap 0 0 0x800000000000000b 0 0 (some 10)
        (fun o => if o = 5 then 1 else 128)).2.echo = [194, 128] ∧
    ([194, 128] : List Nat) ≠ [128] := by
  constructor <;> decide

/-- C6 amended: when the external-interrupt handler claims the UART source
and a byte c is available, bytes 8 and 127 echo the destructive backspace
sequence backspace-space-backspace, bytes 10 and 13 echo a line break
(carriage-return line-feed), every other byte below 128 echoes verbatim as
itself, and bytes 128 and above echo as the two-byte UTF-8 encoding of the
corresponding code point (the handler prints `c as char`). -/
theorem c6_echo (epc tval cause hart mtime : Nat) (uartReg : Nat → Nat)
    (c : Nat) (ha : is_async cause = true) (h11 : cause_num cause = 11)
    (hc : (Uart.get uartReg).1 = some c) (hbyte : c < 256) :
    (m_trap epc tval cause hart mtime (some 10) uartReg).2.echo = echoOf c ∧
    ((c = 8 ∨ c = 127) → echoOf c = [8, 32, 8]) ∧
    ((c = 10 ∨ c = 13) → echoOf c = [13, 10]) ∧
    (c ≠ 8 → c ≠ 127 → c ≠ 10 → c ≠ 13 → c < 128 → echoOf c = [c]) ∧
    (128 ≤ c → echoOf c = [0xc0 ||| (c >>> 6), 0x80 ||| (c &&& 0x3f)]) := by
  refine ⟨?_, ?_, ?_, ?_, ?_⟩
  · unfold m_trap
    simp [ha, h11, hc]
  · intro h
    unfold echoOf
    rw [if_pos h]
  · intro h
    unfold echoOf
    rw [if_neg (by omega), if_pos h]
  · intro h8 h127 h10 h13 hlt
    unfold echoOf charUtf8
    rw [if_neg (by omega), if_neg (by omega), if_pos (by omega)]
  · intro hge
    unfold echoOf charUtf8
    rw [if_neg (by omega), if_neg (by omega), if_neg (by omega)]

/-- Witness for c6_echo: byte 65 is echoed verbatim. -/
theorem c6_echo_witness :
    (is_async 0x800000000000000b = true ∧ cause_num 0x800000000000000b = 11 ∧
      (Uart.get (fun o => if o = 5 then 1 else 65)).1 = some 65 ∧ (65 : Nat) < 256) ∧
    ((m_trap 0 0 0x800000000000000b 0 0 (some 10)
        (fun o => if o = 5 then 1 else 65)).2.echo = echoOf 65 ∧
    (((65 : Nat) = 8 ∨ (65 : Nat) = 127) → echoOf 65 = [8, 32, 8]) ∧
    (((65 : Nat) = 10 ∨ (65 : Nat) = 13) → echoOf 65 = [13, 10]) ∧
    ((65 : Nat) ≠ 8 → (65 : Nat) ≠ 127 → (65 : Nat) ≠ 10 → (65 : Nat) ≠ 13 →
      (65 : Nat) < 128 → echoOf 65 = [65]) ∧
    (128 ≤ (65 : Nat) →
      echoOf 65 = [0xc0 ||| ((65 : Nat) >>> 6), 0x80 ||| ((65 : Nat) &&& 0x3f)])) :=
  ⟨⟨by decide, by decide, by decide, by decide⟩,
    c6_echo 0 0 0x800000000000000b 0 0 (fun o => if o = 5 then 1 else 65) 65
      (by decide) (by decide) (by decide) (by decide)⟩

/-- Membership in the id_map_range loop output: exactly the calls at the
loop start address plus i pages, for i below the page count. -/
theorem mem_id_map_loop (bits : Int) :
    ∀ (n a : Nat) (c : MapCall),
      c ∈ id_map_loop bits n a ↔
        ∃ i, i < n ∧ c = MapCall.mk (a + 4096 * i) (a + 4096 * i) bits 0 := by
  intro n
  induction n with
  | zero =>
    intro a c
    constructor
    · intro h
      simp [id_map_loop] at h
    · rintro ⟨i, hi, _⟩
      omega
  | succ k ih =>
    intro a c
    simp only [id_map_loop, List.mem_cons]
    constructor
    · rintro (rfl | hc)
      · exact ⟨0, by omega, by simp⟩
      · obtain ⟨i, hi, rfl⟩ := (ih (a + PAGE_SIZE) c).1 hc
        refine ⟨i + 1, by omega, ?_⟩
        have h4 : a + PAGE_SIZE + 4096 * i = a + 4096 * (i + 1) := by
          simp only [PAGE_SIZE]
          omega
        rw [h4]
    · rintro ⟨i, hi, rfl⟩
      rcases i with _ | j
      · left
        simp
      · right
        refine (ih (a + PAGE_SIZE) _).2 ⟨j, by omega, ?_⟩
        have h4 : a + 4096 * (j + 1) = a + PAGE_SIZE + 4096 * j := by
          simp only [PAGE_SIZE]
          omega
        rw [h4]

/-- The id_map_range loop never issues the same map call twice. -/
theorem id_map_loop_nodup (bits : Int) :
    ∀ (n a : Nat), (id_map_loop bits n a).Nodup := by
  intro n
  induction n with
  | zero => intro a; simp [id_map_loop]
  | succ k ih =>
    intro a
    simp only [id_map_loop, List.nodup_cons]
    refine ⟨?_, ih (a + PAGE_SIZE)⟩
    intro hmem
    obtain ⟨i, hi, heq⟩ := (mem_id_map_loop bits k (a + PAGE_SIZE) _).1 hmem
    have hv : a = a + PAGE_SIZE + 4096 * i := congrArg MapCall.vaddr heq
    simp only [PAGE_SIZE] at hv
    omega

/-- Clearing the low 12 bits is division-then-multiplication by 4096. -/
theorem pageBase (x : Nat) : (x >>> 12) <<< 12 = 4096 * (x / 4096) := by
  simp only [Nat.shiftLeft_eq, Nat.shiftRight_eq_div_pow]
  norm_num
  omega

/-- align_val at order 12 rounds up to the next multiple of 4096. -/
theorem align_val_12 (v : Nat) : align_val v 12 = 4096 * ((v + 4095) / 4096) := by
  unfold align_val
  simp only [Nat.shiftLeft_eq, Nat.shiftRight_eq_div_pow]
  norm_num
  omega

/-- C7: for every start and end address with start at most end, and any
permission bits, id_map_range issues only identity map calls at level 0 with
the given bits, issues the call for page p exactly when p is a page-aligned
address between start rounded down and end rounded up to 4 KiB boundaries,
and issues no call twice. -/
theorem c7_id_map_range (start endAddr : Nat) (bits : Int)
    (h : start ≤ endAddr) :
    (∀ c ∈ id_map_range start endAddr bits,
        c.paddr = c.vaddr ∧ c.bits = bits ∧ c.level = 0) ∧
    (∀ p : Nat, MapCall.mk p p bits 0 ∈ id_map_range start endAddr bits ↔
        (p % 4096 = 0 ∧ 4096 * (start / 4096) ≤ p ∧
          p < 4096 * ((endAddr + 4095) / 4096))) ∧
    (id_map_range start endAddr bits).Nodup := by
  have hn : id_map_range start endAddr bits =
      id_map_loop bits ((align_val endAddr 12 - alignDownPage start) / PAGE_SIZE)
        (alignDownPage start) := rfl
  have hL : alignDownPage start = 4096 * (start / 4096) := by
    simp [alignDownPage, PAGE_SIZE]
  have hH : align_val endAddr 12 = 4096 * ((endAddr + 4095) / 4096) :=
    align_val_12 endAddr
  refine ⟨?_, ?_, ?_⟩
  · intro c hc
    rw [hn] at hc
    obtain ⟨i, hi, rfl⟩ := (mem_id_map_loop bits _ _ c).1 hc
    simp
  · intro p
    rw [hn, mem_id_map_loop]
    constructor
    · rintro ⟨i, hi, heq⟩
      have h1 : p = alignDownPage start + 4096 * i := congrArg MapCall.vaddr heq
      rw [hL] at h1
      rw [hH, hL] at hi
      simp only [PAGE_SIZE] at hi
      omega
    · rintro ⟨hp0, hpl, hpu⟩
      refine ⟨(p - alignDownPage start) / 4096, ?_, ?_⟩
      · rw [hH, hL]
        simp only [PAGE_SIZE]
        omega
      · have hvp : alignDownPage start + 4096 * ((p - alignDownPage start) / 4096) = p := by
          rw [hL]
          omega
        rw [hvp]
  · rw [hn]
    exact id_map_loop_nodup bits _ _

/-- Witness for c7_id_map_range on the concrete range [4097, 8193), which
rounds to the two pages at 4096 and 8192. -/
theorem c7_id_map_range_witness :
    (4097 : Nat) ≤ 8193 ∧
    ((∀ c ∈ id_map_range 4097 8193 6,
        c.paddr = c.vaddr ∧ c.bits = 6 ∧ c.level = 0) ∧
    (∀ p : Nat, MapCall.mk p p 6 0 ∈ id_map_range 4097 8193 6 ↔
        (p % 4096 = 0 ∧ 4096 * (4097 / 4096) ≤ p ∧
          p < 4096 * ((8193 + 4095) / 4096))) ∧
    (id_map_range 4097 8193 6).Nodup) :=
  ⟨by decide, c7_id_map_range 4097 8193 6 (by decide)⟩

/-- Every call id_map_range issues has its virtual address at or above the
rounded-down start. -/
theorem mem_id_map_range_vaddr_lb (s e : Nat) (b : Int) (c : MapCall)
    (hc : c ∈ id_map_range s e b) : alignDownPage s ≤ c.vaddr := by
  obtain ⟨i, hi, rfl⟩ := (mem_id_map_loop b _ _ c).1 hc
  simp

/-- A level-0 map call covers an address only if the call's virtual address
lies in the same 4 KiB page. -/
theorem coversAddr_page (c : MapCall) (a : Nat) (h : coversAddr c a) :
    c.vaddr / 4096 = a / 4096 := by
  obtain ⟨-, hle, hlt⟩ := h
  rw [pageBase] at hle hlt
  omega

/-- C2: the timer-compare register address that the trap dispatcher writes
(0x0200_4000) is NOT covered by any page-mapping call kinit issues: the only
store the dispatcher performs behind translation goes to 0x0200_4000, and no
call in kinit's mapping sequence (with every kernel region inside RAM at or
above 0x8000_0000) maps the page containing it — kinit maps the CLINT pages
0x0200_0000, 0x0200_b000 and 0x0200_c000 instead. -/
theorem c2_mtimecmp_unmapped (S : KinitSyms) (bitsRW bitsRE : Int)
    (hk1 : 0x80000000 ≤ S.kheapHead) (hk2 : 0x80000000 ≤ S.heapStart)
    (hk3 : 0x80000000 ≤ S.textStart) (hk4 : 0x80000000 ≤ S.rodataStart)
    (hk5 : 0x80000000 ≤ S.dataStart) (hk6 : 0x80000000 ≤ S.bssStart)
    (hk7 : 0x80000000 ≤ S.stackStart)
    (hk8 : 0x80000000 ≤ S.trapStackTop - PAGE_SIZE)
    (hk9 : 0x80000000 ≤ S.trapFrameAddr) :
    (∀ epc tval cause hart mtime plicNext uartReg a v,
        (m_trap epc tval cause hart mtime plicNext uartReg).2.mtimecmpWrite =
          some (a, v) → a = MTIMECMP_ADDR) ∧
    (∀ c ∈ kinitMapCalls S bitsRW bitsRE, ¬ coversAddr c MTIMECMP_ADDR) := by
  constructor
  · intro epc tval cause hart mtime plicNext uartReg a v hw
    unfold m_trap at hw
    by_cases ha : is_async cause
    · simp only [ha, if_true] at hw
      split_ifs at hw with hc3 hc7 hc11
      · simp [noEffects] at hw
      · simp at hw
        obtain ⟨hwa, -⟩ := hw
        omega
      · rcases plicNext with _ | i
        · simp [noEffects] at hw
        · by_cases hi : i = 10
          · rcases hg : (Uart.get uartReg).1 with _ | cc <;>
              simp [hi, hg] at hw
          · simp [hi] at hw
      · simp [noEffects] at hw
    · have ha2 : is_async cause = false := by simpa using ha
      simp only [ha2, Bool.false_eq_true, if_false] at hw
      split_ifs at hw <;> simp [noEffects] at hw
  · intro c hc hcov
    have hpg := coversAddr_page c MTIMECMP_ADDR hcov
    have hM : MTIMECMP_ADDR / 4096 = 8196 := by norm_num [MTIMECMP_ADDR]
    rw [hM] at hpg
    have hk8p : 0x80000000 ≤ S.trapStackTop - 4096 := by
      simpa [PAGE_SIZE] using hk8
    simp only [kinitMapCalls, List.mem_append, List.mem_cons, List.not_mem_nil,
      or_false, or_assoc] at hc
    rcases hc with hc | hc | hc | hc | hc | hc | hc | hc | hc | hc | hc | hc |
      hc | hc | hc <;>
      first
        | (subst hc; norm_num at hpg)
        | (have hb := mem_id_map_range_vaddr_lb _ _ _ c hc
           simp only [alignDownPage, PAGE_SIZE] at hb
           omega)

/-- Witness for c2_mtimecmp_unmapped at a concrete well-formed layout. -/
theorem c2_mtimecmp_unmapped_witness :
    ((0x80000000 : Nat) ≤ sampleKinitSyms.kheapHead ∧
     (0x80000000 : Nat) ≤ sampleKinitSyms.heapStart ∧
     (0x80000000 : Nat) ≤ sampleKinitSyms.textStart ∧
     (0x80000000 : Nat) ≤ sampleKinitSyms.rodataStart ∧
     (0x80000000 : Nat) ≤ sampleKinitSyms.dataStart ∧
     (0x80000000 : Nat) ≤ sampleKinitSyms.bssStart ∧
     (0x80000000 : Nat) ≤ sampleKinitSyms.stackStart ∧
     (0x80000000 : Nat) ≤ sampleKinitSyms.trapStackTop - PAGE_SIZE ∧
     (0x80000000 : Nat) ≤ sampleKinitSyms.trapFrameAddr) ∧
    ((∀ epc tval cause hart mtime plicNext uartReg a v,
        (m_trap epc tval cause hart mtime plicNext uartReg).2.mtimecmpWrite =
          some (a, v) → a = MTIMECMP_ADDR) ∧
     (∀ c ∈ kinitMapCalls sampleKinitSyms 6 10, ¬ coversAddr c MTIMECMP_ADDR)) :=
  ⟨⟨by decide, by decide, by decide, by decide, by decide, by decide, by decide,
     by decide, by decide⟩,
   c2_mtimecmp_unmapped sampleKinitSyms 6 10 (by decide) (by decide) (by decide)
     (by decide) (by decide) (by decide) (by decide) (by decide) (by decide)⟩

/-- C8 counterexample: for hart 1, the boot initialization kinit_hart
populates the hart identifier but leaves both the satp value and the trap
stack pointer unwritten (their assignments are commented out in the
source), so the trap-context block is not populated with all three. -/
theorem c8_counterexample :
    (kinit_hartFrameWrites 1 bootFrameInit).hart_id = some 1 ∧
    (kinit_hartFrameWrites 1 bootFrameInit).satp = none ∧
    (kinit_hartFrameWrites 1 bootFrameInit).trap_stack = none := by
  decide

/-- C8 amended: hart 0s boot (kinit) populates the satp value and the trap
stack pointer and leaves the hart identifier at its static initial value;
a non-zero hart's boot (kinit_hart) populates only the hart identifier and
leaves satp and the trap stack pointer at their static initial values. -/
theorem c8_boot_frame_population (satpValue trapStackTop hartid : Nat)
    (tf : TrapFrameFields) :
    ((kinitFrameWrites satpValue trapStackTop tf).satp = some satpValue ∧
     (kinitFrameWrites satpValue trapStackTop tf).trap_stack = some trapStackTop ∧
     (kinitFrameWrites satpValue trapStackTop tf).hart_id = tf.hart_id) ∧
    ((kinit_hartFrameWrites hartid tf).hart_id = some hartid ∧
     (kinit_hartFrameWrites hartid tf).satp = tf.satp ∧
     (kinit_hartFrameWrites hartid tf).trap_stack = tf.trap_stack) := by
  simp [kinitFrameWrites, kinit_hartFrameWrites]

/-- C9 counterexample: at the end of kinit's register sequence with root
table 0x8010_0000 and trap frame 0x8000_2000, both scratch registers hold
the trap-frame address 0x8000_2000, which differs from the encoded satp
value 0x8000000000080100 — the satp value is not what is written into the
scratch registers. -/
theorem c9_counterexample :
    (kinitRegSeq 0x80100000 0x80002000 ⟨0, 0, 0⟩).mscratch = 0x80002000 ∧
    (kinitRegSeq 0x80100000 0x80002000 ⟨0, 0, 0⟩).sscratch = 0x80002000 ∧
    build_satp 8 0 0x80100000 = 0x8000000000080100 ∧
    (0x80002000 : Nat) ≠ 0x8000000000080100 := by
  decide

/-- C9 amended: at the end of kinit's register sequence, both the
machine-mode and supervisor-mode scratch registers hold the address of hart
0s trap-context block (supervisor copied from machine), while the encoded
satp value (mode 8 in the top bits, root table address shifted right by 12)
is written into the translation-control (satp) register itself. -/
theorem c9_scratch_and_satp (root_u trapFrameAddr : Nat) (r0 : CpuRegs) :
    (kinitRegSeq root_u trapFrameAddr r0).mscratch = trapFrameAddr ∧
    (kinitRegSeq root_u trapFrameAddr r0).sscratch = trapFrameAddr ∧
    (kinitRegSeq root_u trapFrameAddr r0).satp = build_satp 8 0 root_u := by
  simp [kinitRegSeq, mscratch_write, sscratch_write, satp_write, mscratch_read]

/-- C10: Uart::get never blocks: it returns none exactly when bit 0 of the
line-status register at base + 5 reads as 0, otherwise returns some of the
byte read from the receive register at base + 0, and it performs no write to
any device register. -/
theorem c10_uart_get (reg : Nat → Nat) :
    ((Uart.get reg).1 = none ↔ reg 5 &&& 1 = 0) ∧
    (∀ b, (Uart.get reg).1 = some b → reg 5 &&& 1 ≠ 0 ∧ b = reg 0) ∧
    (∀ op ∈ (Uart.get reg).2, ∀ o v, op ≠ UartOp.write o v) := by
  unfold Uart.get
  by_cases h : reg 5 &&& 1 = 0
  · simp [h]
  · rw [if_neg h]
    refine ⟨⟨fun hx => absurd hx (by simp), fun hx => absurd hx h⟩, ?_, ?_⟩
    · intro b hb
      simp at hb
      exact ⟨h, hb.symm⟩
    · intro op hop o v
      simp at hop
      rcases hop with rfl | rfl <;> simp

/-- Witness for c10_uart_get at a concrete device state with data ready and
byte 65 pending. -/
theorem c10_uart_get_witness :
    ((Uart.get (fun o => if o = 5 then 1 else 65)).1 = none ↔
        (fun o => if o = 5 then 1 else 65) 5 &&& 1 = 0) ∧
    (∀ b, (Uart.get (fun o => if o = 5 then 1 else 65)).1 = some b →
        (fun o => if o = 5 then 1 else 65) 5 &&& 1 ≠ 0 ∧
          b = (fun o => if o = 5 then 1 else 65) 0) ∧
    (∀ op ∈ (Uart.get (fun o => if o = 5 then 1 else 65)).2,
        ∀ o v, op ≠ UartOp.write o v) :=
  c10_uart_get (fun o => if o = 5 then 1 else 65)
